import Mathlib

/-!
Shallow embedding of `src/asst4.py`, a shipping-errors dashboard script.

A pandas `DataFrame` of shipments is embedded as a `List Shipment`; each
script statement that builds a derived frame or aggregate becomes a Lean
function on such lists.  Timestamps are embedded as `Option Int` (seconds;
`none` models a null/NaT entry), and the float arithmetic of the script is
embedded as exact `Rat` arithmetic, with pandas' `.round(2)`
(round-half-to-even at two decimals) made explicit as `round2`.
Row order of pandas group-by output (sorted keys) is not modelled: group
tables are lists keyed by `List.dedup` of the key column, which preserves
the same set of groups.
-/

/-- One row of `shipments.csv` as loaded on line 6 (columns referenced by the
script), plus the derived columns the script adds (`delivery_date` on line 13,
`dest_lat`/`dest_lon` on lines 23-24; they are meaningless before enrichment). -/
structure Shipment where
  driver_id : String
  vehicle_id : String
  route_id : String
  destination : String
  status : String
  pickup_time : Option Int
  delivery_time : Option Int
  delivery_date : Option Int
  dest_lat : Option Rat
  dest_lon : Option Rat
deriving DecidableEq

/-- A value of the `city_coords` dict on lines 16-22. -/
structure CityCoord where
  lat : Rat
  lon : Rat
deriving DecidableEq

/-- Lines 16-22: the static city-coordinate lookup table. -/
def city_coords : List (String × CityCoord) :=
  [("New York", ⟨40.7128, -74.0060⟩),
   ("Los Angeles", ⟨34.0522, -118.2437⟩),
   ("Houston", ⟨29.7604, -95.3698⟩),
   ("Phoenix", ⟨33.4484, -112.0740⟩),
   ("Chicago", ⟨41.8781, -87.6298⟩)]

/-- Lines 12-13 (branch where the CSV has no `delivery_date` column):
`delivery_date` is the calendar date of `delivery_time`, embedded as the day
number of the timestamp. -/
def addDeliveryDate (x : Shipment) : Shipment :=
  { x with delivery_date := x.delivery_time.map (fun t => t / 86400) }

/-- Lines 23-24: `dest_lat`/`dest_lon` are each obtained by a two-step
dictionary lookup on the destination; a destination absent from the table
yields null for both. -/
def setCoords (coords : List (String × CityCoord)) (x : Shipment) : Shipment :=
  { x with
    dest_lat := (coords.lookup x.destination).map (·.lat),
    dest_lon := (coords.lookup x.destination).map (·.lon) }

/-- Lines 12-24: the loaded table after both derived-column steps. -/
def enrichAll (df : List Shipment) : List Shipment :=
  (df.map addDeliveryDate).map (setCoords city_coords)

/-- Line 27: distinct destinations of rows whose `dest_lat` is null. -/
def missing_coords (df : List Shipment) : List String :=
  ((df.filter (fun x => x.dest_lat.isNone)).map (·.destination)).dedup

/-- Lines 28-29: the warning banners emitted by the run; each banner carries
the list of names that the script joins with `", "` into its message. -/
def coordWarnings (df : List Shipment) : List (List String) :=
  if 0 < (missing_coords df).length then [missing_coords df] else []

/-- Lines 38-40: `filtered` is a copy of the table, restricted to the selected
driver unless `"All"` is selected. -/
def filterByDriver (selected_driver : String) (df : List Shipment) : List Shipment :=
  if selected_driver = "All" then df
  else df.filter (fun x => x.driver_id == selected_driver)

/-- Line 43. -/
def total_missing (filtered : List Shipment) : Nat :=
  (filtered.filter (fun x => x.status == "Missing")).length

/-- Line 44. -/
def damaged_count (filtered : List Shipment) : Nat :=
  (filtered.filter (fun x => x.status == "Damaged")).length

/-- Line 46. -/
def missing_shipments (filtered : List Shipment) : List Shipment :=
  filtered.filter (fun x => x.status == "Missing")

/-- Lines 47-52: the average-transit-time KPI before string formatting;
`none` is rendered as `"N/A"`, and `some v` is formatted to one decimal with
a `days` suffix, where `v` is the mean of `delivery_time - pickup_time` over
the Missing rows, in days. -/
def avg_transit_days (filtered : List Shipment) : Option Rat :=
  let ms := missing_shipments filtered
  if !ms.isEmpty && ms.all (fun x => x.pickup_time.isSome)
      && ms.all (fun x => x.delivery_time.isSome) then
    some (((ms.map
        (fun x => ((x.delivery_time.getD 0 - x.pickup_time.getD 0 : Int) : Rat))).sum
      / (ms.length : Rat)) / 86400)
  else none

/-- pandas `Series.round(2)`: round half to even at two decimals, embedded in
exact rational arithmetic. -/
def round2 (q : Rat) : Rat :=
  let f : Int := ⌊q * 100⌋
  let frac : Rat := q * 100 - (f : Rat)
  let r : Int :=
    if frac < 1/2 then f
    else if 1/2 < frac then f + 1
    else if f % 2 = 0 then f else f + 1
  (r : Rat) / 100

/-- Line 62: the pie chart's data, occurrence counts per status value. -/
def status_distribution (filtered : List Shipment) : List (String × Nat) :=
  ((filtered.map (·.status)).dedup).map
    (fun s => (s, (filtered.filter (fun x => x.status == s)).length))

/-- Line 66: `filtered.groupby(breakdown_type).size()`, keyed by the selected
grouping column `key`. -/
def total_by_group (key : Shipment → String) (filtered : List Shipment) :
    List (String × Nat) :=
  ((filtered.map key).dedup).map
    (fun g => (g, (filtered.filter (fun x => key x == g)).length))

/-- A row of the `incident_by_group` frame: grouping value, status, count. -/
structure IncidentRow where
  group : String
  status : String
  count : Nat
deriving DecidableEq

/-- Lines 67-71: rows with status in `["Missing", "Damaged"]`, grouped by
(grouping column, status), with group sizes as `count`. -/
def incident_by_group (key : Shipment → String) (filtered : List Shipment) :
    List IncidentRow :=
  let inc := filtered.filter (fun x => (["Missing", "Damaged"]).contains x.status)
  ((inc.map (fun x => (key x, x.status))).dedup).map
    (fun p => { group := p.1, status := p.2,
                count := (inc.filter
                  (fun x => key x == p.1 && x.status == p.2)).length })

/-- A row of the bar chart's `merged` frame (lines 72-73). -/
structure GroupRow where
  group : String
  status : String
  count : Nat
  total : Nat
  percent : Rat
deriving DecidableEq

/-- Lines 72-73: inner merge of `incident_by_group` with `total_by_group` on
the grouping column, then the `percent` column. -/
def mergedTable (key : Shipment → String) (filtered : List Shipment) :
    List GroupRow :=
  (incident_by_group key filtered).filterMap (fun r =>
    ((total_by_group key filtered).lookup r.group).map (fun t =>
      { group := r.group, status := r.status, count := r.count, total := t,
        percent := round2 ((r.count : Rat) / (t : Rat) * 100) }))

/-- Line 83: Missing rows grouped by `delivery_date` (group-by drops null
keys), with counts. -/
def trend_data (filtered : List Shipment) : List (Int × Nat) :=
  let m := filtered.filter (fun x => x.status == "Missing")
  ((m.filterMap (·.delivery_date)).dedup).map
    (fun d => (d, (m.filter (fun x => x.delivery_date == some d)).length))

/-- A row of `total_shipments` inside `generate_percentage_map`
(lines 89-93). -/
structure TotalRow where
  destination : String
  total : Nat
  lat : Option Rat
  lon : Option Rat
deriving DecidableEq

/-- Lines 89-93: group by destination; `total` is the group size and
`lat`/`lon` are the group's first non-null coordinates (pandas `"first"`
aggregation skips nulls). -/
def total_shipments (filtered_df : List Shipment) : List TotalRow :=
  ((filtered_df.map (·.destination)).dedup).map (fun d =>
    let g := filtered_df.filter (fun x => x.destination == d)
    { destination := d, total := g.length,
      lat := (g.filterMap (·.dest_lat)).head?,
      lon := (g.filterMap (·.dest_lon)).head? })

/-- Lines 94-99: rows of the selected status, grouped by destination, with
group sizes as `incident`. -/
def status_shipments (filtered_df : List Shipment) (status_type : String) :
    List (String × Nat) :=
  let f := filtered_df.filter (fun x => x.status == status_type)
  ((f.map (·.destination)).dedup).map
    (fun d => (d, (f.filter (fun x => x.destination == d)).length))

/-- A row of the map's `merged` frame (lines 100-102). -/
structure MapRow where
  destination : String
  total : Nat
  lat : Option Rat
  lon : Option Rat
  incident : Nat
  percent_incident : Rat
deriving DecidableEq

/-- Lines 100-102: left merge on destination, `fillna(0)` on `incident`, then
the `percent_incident` column. -/
def mapTable (filtered_df : List Shipment) (status_type : String) : List MapRow :=
  (total_shipments filtered_df).map (fun t =>
    let inc := ((status_shipments filtered_df status_type).lookup t.destination).getD 0
    { destination := t.destination, total := t.total, lat := t.lat, lon := t.lon,
      incident := inc,
      percent_incident := round2 ((inc : Rat) / (t.total : Rat) * 100) })

/-- Modelled from the spec: the rendering step inside `px.scatter_mapbox`
(lines 104-114) lies outside this repository; per the spec, a destination
without coordinates "is excluded from the map", i.e. only rows with both
coordinates present become map points. -/
def renderedMapPoints (filtered_df : List Shipment) (status_type : String) :
    List MapRow :=
  (mapTable filtered_df status_type).filter (fun r => r.lat.isSome && r.lon.isSome)

/-- All data the script hands to the rendering layer for one run. -/
structure Dashboard where
  total_missing : Nat
  avg_transit : Option Rat
  damaged_count : Nat
  status_distribution : List (String × Nat)
  comparison : List GroupRow
  trend : List (Int × Nat)
  map_table : List MapRow
deriving DecidableEq

/-- Lines 38-118: everything displayed, computed from the enriched table `df`
through the driver filter. -/
def dashboard (selected_driver : String) (key : Shipment → String)
    (map_status_type : String) (df : List Shipment) : Dashboard :=
  let filtered := filterByDriver selected_driver df
  { total_missing := total_missing filtered,
    avg_transit := avg_transit_days filtered,
    damaged_count := damaged_count filtered,
    status_distribution := status_distribution filtered,
    comparison := mergedTable key filtered,
    trend := trend_data filtered,
    map_table := mapTable filtered map_status_type }

/-- Lines 38-118 threaded as sequential state: `filtered` starts as a copy of
`shipments_df` (line 38), is reassigned by the driver filter (lines 39-40),
and every aggregate reads `filtered`; no later statement assigns to
`shipments_df`, which is returned alongside the displayed data. -/
def runScript (selected_driver : String) (key : Shipment → String)
    (map_status_type : String) (shipments_df : List Shipment) :
    Dashboard × List Shipment :=
  let filtered := shipments_df
  let filtered := if selected_driver = "All" then filtered
    else filtered.filter (fun x => x.driver_id == selected_driver)
  ({ total_missing := total_missing filtered,
     avg_transit := avg_transit_days filtered,
     damaged_count := damaged_count filtered,
     status_distribution := status_distribution filtered,
     comparison := mergedTable key filtered,
     trend := trend_data filtered,
     map_table := mapTable filtered map_status_type },
   shipments_df)

/-- Example row builder: a shipment as loaded from `shipments.csv` (derived
columns not yet computed). -/
def mkShip (driver dest st : String) : Shipment :=
  { driver_id := driver, vehicle_id := "V1", route_id := "R1",
    destination := dest, status := st, pickup_time := none,
    delivery_time := none, delivery_date := none,
    dest_lat := none, dest_lon := none }

/-- Example table: ten Chicago shipments of which three are Missing. -/
def exChicago : List Shipment :=
  [mkShip "D1" "Chicago" "Missing", mkShip "D1" "Chicago" "Missing",
   mkShip "D1" "Chicago" "Missing", mkShip "D1" "Chicago" "Delivered",
   mkShip "D1" "Chicago" "Delivered", mkShip "D1" "Chicago" "Delivered",
   mkShip "D1" "Chicago" "Delivered", mkShip "D1" "Chicago" "Delivered",
   mkShip "D1" "Chicago" "Delivered", mkShip "D1" "Chicago" "Delivered"]

/-- The map row the example table produces. -/
def chicagoRow : MapRow :=
  { destination := "Chicago", total := 10, lat := none, lon := none,
    incident := 3, percent_incident := 30 }

/-- Example table with a single Delivered shipment (no incidents). -/
def deliveredOnly : List Shipment := [mkShip "D1" "Chicago" "Delivered"]

/-- Example table with one Missing shipment carrying full timestamps. -/
def exMissingTimed : List Shipment :=
  [{ mkShip "D1" "Chicago" "Missing" with
      pickup_time := some 0, delivery_time := some 172800 }]

/-- Example table whose first destination has no coordinates. -/
def exSpringfield : List Shipment :=
  [mkShip "D1" "Springfield" "Missing", mkShip "D1" "Chicago" "Missing"]

/-- `List.lookup` on a list of pairs obtained by graphing a function over a
key list returns the function's value exactly on present keys. -/
theorem lookup_graph {β : Type} (f : String → β) (ks : List String) (d : String) :
    ((ks.map (fun k => (k, f k))).lookup d) = if d ∈ ks then some (f d) else none := by
  induction ks with
  | nil => simp
  | cons k t ih =>
    by_cases h : d = k
    · subst h; simp [List.lookup]
    · have hdk : (d == k) = false := by simp [h]
      simp [List.lookup, hdk, h, ih]

/-- The left-merged, zero-filled `incident` value of a destination counts the
input rows at that destination with the selected status. -/
theorem status_lookup_eq (df : List Shipment) (s d : String) :
    (((status_shipments df s).lookup d).getD 0) =
      df.countP (fun x => x.destination == d && x.status == s) := by
  simp only [status_shipments]
  rw [lookup_graph]
  by_cases hmem : d ∈ ((df.filter (fun x => x.status == s)).map (·.destination)).dedup
  · rw [if_pos hmem, Option.getD_some, ← List.countP_eq_length_filter,
      List.countP_filter]
  · rw [if_neg hmem, Option.getD_none]
    symm
    rw [List.countP_eq_zero]
    intro a ha hcontra
    simp only [Bool.and_eq_true, beq_iff_eq] at hcontra
    exact hmem (List.mem_dedup.2 (List.mem_map.2
      ⟨a, List.mem_filter.2 ⟨ha, by simp [hcontra.2]⟩, hcontra.1⟩))

/-- Characterization of every row of the map's merged frame: its `total` and
`incident` fields count the matching rows of the input, and its percentage is
the rounded ratio of the two. -/
theorem mapTable_row_spec (df : List Shipment) (s : String) (r : MapRow)
    (hr : r ∈ mapTable df s) :
    r.total = df.countP (fun x => x.destination == r.destination) ∧
    r.incident = df.countP (fun x => x.destination == r.destination && x.status == s) ∧
    r.percent_incident = round2 ((r.incident : Rat) / (r.total : Rat) * 100) := by
  obtain ⟨t, ht, rfl⟩ := List.mem_map.1 hr
  obtain ⟨d, hd, rfl⟩ := List.mem_map.1 ht
  refine ⟨?_, ?_, ?_⟩
  · dsimp
    rw [List.countP_eq_length_filter]
  · dsimp
    rw [status_lookup_eq]
  · dsimp

/-- Every destination occurring in the input has a row in the map's merged
frame. -/
theorem mapTable_complete (df : List Shipment) (s : String) (x : Shipment)
    (hx : x ∈ df) :
    ∃ r ∈ mapTable df s, r.destination = x.destination := by
  refine ⟨_, List.mem_map.2 ⟨_, List.mem_map.2
    ⟨x.destination, List.mem_dedup.2 (List.mem_map.2 ⟨x, hx, rfl⟩), rfl⟩, rfl⟩, rfl⟩

/-- Rounding zero gives zero. -/
theorem round2_zero : round2 0 = 0 := by
  norm_num [round2]

/-- `round2` maps `[0, 100]` into `[0, 100]`. -/
theorem round2_bounds (q : Rat) (h0 : 0 ≤ q) (h1 : q ≤ 100) :
    0 ≤ round2 q ∧ round2 q ≤ 100 := by
  have h0m : (0:Rat) ≤ q * 100 := by nlinarith
  have h1m : q * 100 ≤ 10000 := by nlinarith
  have fl : ((⌊q * 100⌋ : Int) : Rat) ≤ q * 100 := Int.floor_le _
  have fh : q * 100 < ((⌊q * 100⌋ : Int) : Rat) + 1 := Int.lt_floor_add_one _
  have hup : ⌊q * 100⌋ ≤ 10000 := by exact_mod_cast fl.trans h1m
  have hlow : (0:Int) ≤ ⌊q * 100⌋ := Int.le_floor.mpr (by exact_mod_cast h0m)
  have hdiv : ∀ r : Int, 0 ≤ r → r ≤ 10000 → 0 ≤ (r:Rat)/100 ∧ (r:Rat)/100 ≤ 100 := by
    intro r hr0 hr1
    constructor
    · apply div_nonneg _ (by norm_num)
      exact_mod_cast hr0
    · rw [div_le_iff₀ (by norm_num : (0:Rat) < 100)]
      have hc : (r:Rat) ≤ ((10000:Int):Rat) := by exact_mod_cast hr1
      push_cast at hc
      linarith
  simp only [round2]
  split_ifs with hA hB hC
  · exact hdiv _ hlow hup
  · have hlt : ⌊q * 100⌋ < 10000 := by
      have hr : ((⌊q * 100⌋ : Int) : Rat) < ((10000:Int):Rat) := by push_cast; linarith
      exact_mod_cast hr
    exact hdiv _ (by omega) (by omega)
  · exact hdiv _ hlow hup
  · have hlt : ⌊q * 100⌋ < 10000 := by
      have hr : ((⌊q * 100⌋ : Int) : Rat) < ((10000:Int):Rat) := by push_cast; linarith
      exact_mod_cast hr
    exact hdiv _ (by omega) (by omega)

/-- The `lat` field of a map-table row is the first non-null `dest_lat` among
the input rows at that destination. -/
theorem mapTable_row_lat (df : List Shipment) (s : String) (r : MapRow)
    (hr : r ∈ mapTable df s) :
    r.lat = ((df.filter (fun x => x.destination == r.destination)).filterMap
      (·.dest_lat)).head? := by
  obtain ⟨t, ht, rfl⟩ := List.mem_map.1 hr
  obtain ⟨d, hd, rfl⟩ := List.mem_map.1 ht
  dsimp

/-- C1: every row of the map's merged frame reports, for the selected status,
the rounded percentage (count of that status at the destination over the
destination's total, times 100); destinations with no matching shipment get
exactly 0; and every destination of the input set has a row. -/
theorem mapTable_percent_correct (df : List Shipment) (s : String) :
    (∀ r ∈ mapTable df s,
      r.percent_incident = round2
        (((df.filter (fun x => x.destination == r.destination && x.status == s)).length : Rat)
          / ((df.filter (fun x => x.destination == r.destination)).length : Rat) * 100) ∧
      ((df.filter (fun x => x.destination == r.destination && x.status == s)).length = 0 →
        r.percent_incident = 0)) ∧
    ∀ x ∈ df, ∃ r ∈ mapTable df s, r.destination = x.destination := by
  refine ⟨?_, fun x hx => mapTable_complete df s x hx⟩
  intro r hr
  obtain ⟨htot, hinc, hpct⟩ := mapTable_row_spec df s r hr
  rw [List.countP_eq_length_filter] at htot hinc
  constructor
  · rw [hpct, hinc, htot]
  · intro hzero
    rw [hpct, hinc, hzero]
    simp [round2_zero]

/-- Evaluation of the map table on the ten-Chicago-shipments example. -/
theorem mapTable_exChicago_eval : mapTable exChicago "Missing" = [chicagoRow] := by
  have h1 : total_shipments exChicago =
      [{ destination := "Chicago", total := 10, lat := none, lon := none }] := by
    decide
  have h2 : status_shipments exChicago "Missing" = [("Chicago", 3)] := by
    decide
  unfold mapTable
  rw [h1, h2]
  simp only [List.map_cons, List.map_nil, List.lookup]
  norm_num [chicagoRow, round2, MapRow.mk.injEq]

/-- Witness for C1 on the example table: three Missing of ten Chicago
shipments give a map percentage of exactly 30. -/
theorem mapTable_percent_witness :
    chicagoRow ∈ mapTable exChicago "Missing" ∧
    chicagoRow.percent_incident = round2
      (((exChicago.filter (fun x =>
          x.destination == chicagoRow.destination && x.status == "Missing")).length : Rat)
        / ((exChicago.filter (fun x =>
          x.destination == chicagoRow.destination)).length : Rat) * 100) ∧
    chicagoRow.percent_incident = 30 := by
  have hm : chicagoRow ∈ mapTable exChicago "Missing" := by
    rw [mapTable_exChicago_eval]
    exact List.mem_singleton_self _
  exact ⟨hm, ((mapTable_percent_correct exChicago "Missing").1 chicagoRow hm).1, rfl⟩

/-- C7: every map-table row over a destination with at least one shipment has
its percentage inside `[0, 100]`. -/
theorem mapTable_percent_in_range (df : List Shipment) (s : String) (r : MapRow)
    (hr : r ∈ mapTable df s) (htot : 0 < r.total) :
    0 ≤ r.percent_incident ∧ r.percent_incident ≤ 100 := by
  obtain ⟨ht, hi, hp⟩ := mapTable_row_spec df s r hr
  have hle : r.incident ≤ r.total := by
    rw [ht, hi]
    apply List.countP_mono_left
    intro x hx h
    rw [Bool.and_eq_true] at h
    exact h.1
  have h2 : (0:Rat) < (r.total : Rat) := by exact_mod_cast htot
  have h1 : (r.incident : Rat) ≤ (r.total : Rat) := by exact_mod_cast hle
  rw [hp]
  apply round2_bounds
  · apply mul_nonneg _ (by norm_num)
    positivity
  · rw [div_mul_eq_mul_div, div_le_iff₀ h2]
    nlinarith

/-- Witness for C7 at the example table's Chicago row. -/
theorem mapTable_percent_in_range_witness :
    0 ≤ chicagoRow.percent_incident ∧ chicagoRow.percent_incident ≤ 100 :=
  mapTable_percent_in_range exChicago "Missing" chicagoRow
    (by rw [mapTable_exChicago_eval]; exact List.mem_singleton_self _)
    (by decide)

/-- C5: a destination absent from the coordinate table yields no rendered map
point, for any driver selection and status type. -/
theorem unmapped_excluded (df : List Shipment) (sel s d : String)
    (hd : city_coords.lookup d = none) :
    ((renderedMapPoints (filterByDriver sel (enrichAll df)) s).all
      (fun r => !(r.destination == d))) = true := by
  rw [List.all_eq_true]
  intro r hrm
  obtain ⟨hr, hcoord⟩ := List.mem_filter.1 hrm
  by_cases hq : r.destination = d
  case neg => simp [hq]
  exfalso
  have hlat := mapTable_row_lat _ s r hr
  have hall : ∀ x ∈ (filterByDriver sel (enrichAll df)).filter
      (fun x => x.destination == r.destination), x.dest_lat = none := by
    intro x hx
    obtain ⟨hx1, hx2⟩ := List.mem_filter.1 hx
    have hx3 : x ∈ enrichAll df := by
      unfold filterByDriver at hx1
      split_ifs at hx1 with hAll
      · exact hx1
      · exact (List.mem_filter.1 hx1).1
    obtain ⟨y, hy, rfl⟩ := List.mem_map.1 hx3
    show ((city_coords.lookup y.destination).map (·.lat)) = none
    have hx2e : y.destination = r.destination := by
      simpa [setCoords] using hx2
    rw [hx2e, hq, hd]
    rfl
  have hnil : ((filterByDriver sel (enrichAll df)).filter
      (fun x => x.destination == r.destination)).filterMap (·.dest_lat) = [] := by
    rw [List.filterMap_eq_nil_iff]
    intro a ha
    rw [hall a ha]
  rw [hnil] at hlat
  simp [hlat] at hcoord

/-- Witness for C5: the unmapped destination of the example table is not among
the rendered points. -/
theorem unmapped_excluded_witness :
    ((renderedMapPoints (filterByDriver "All" (enrichAll exSpringfield)) "Missing").all
      (fun r => !(r.destination == "Springfield"))) = true :=
  unmapped_excluded exSpringfield "All" "Missing" "Springfield" (by decide)

/-- C6: after enrichment, every shipment's derived coordinates are both null
or both non-null (they come from the same dictionary lookup). -/
theorem coords_both_or_neither (df : List Shipment) (x : Shipment)
    (hx : x ∈ enrichAll df) : (x.dest_lat = none ↔ x.dest_lon = none) := by
  obtain ⟨y, hy, rfl⟩ := List.mem_map.1 hx
  show ((city_coords.lookup y.destination).map (·.lat)) = none ↔
    ((city_coords.lookup y.destination).map (·.lon)) = none
  cases city_coords.lookup y.destination <;> simp

/-- Witness for C6 at a concrete enriched shipment. -/
theorem coords_both_or_neither_witness :
    ((setCoords city_coords (addDeliveryDate (mkShip "D1" "Chicago" "Missing"))).dest_lat
        = none ↔
      (setCoords city_coords (addDeliveryDate (mkShip "D1" "Chicago" "Missing"))).dest_lon
        = none) :=
  coords_both_or_neither [mkShip "D1" "Chicago" "Missing"] _
    (List.mem_singleton_self _)

/-- C9: the missing-coordinate warning is emitted exactly when some loaded
destination is absent from the coordinate table, at most once per run, and its
one banner lists every distinct unmapped destination (without duplicates). -/
theorem warning_spec (df : List Shipment) :
    (coordWarnings (enrichAll df) ≠ [] ↔
      ∃ x ∈ df, city_coords.lookup x.destination = none) ∧
    (coordWarnings (enrichAll df)).length ≤ 1 ∧
    ∀ w ∈ coordWarnings (enrichAll df), w.Nodup ∧
      ∀ x ∈ df, city_coords.lookup x.destination = none → x.destination ∈ w := by
  have hmem : ∀ x ∈ df, city_coords.lookup x.destination = none →
      x.destination ∈ missing_coords (enrichAll df) := by
    intro x hx hlk
    apply List.mem_dedup.2
    apply List.mem_map.2
    refine ⟨setCoords city_coords (addDeliveryDate x), ?_, rfl⟩
    apply List.mem_filter.2
    refine ⟨List.mem_map.2 ⟨addDeliveryDate x, List.mem_map.2 ⟨x, hx, rfl⟩, rfl⟩, ?_⟩
    show ((city_coords.lookup x.destination).map (·.lat)).isNone = true
    rw [hlk]
    rfl
  have hback : missing_coords (enrichAll df) ≠ [] →
      ∃ x ∈ df, city_coords.lookup x.destination = none := by
    intro hne
    obtain ⟨d, hd⟩ := List.exists_mem_of_ne_nil _ hne
    obtain ⟨x, hxf, rfl⟩ := List.mem_map.1 (List.mem_dedup.1 hd)
    obtain ⟨hxe, hlat⟩ := List.mem_filter.1 hxf
    obtain ⟨y, hy, rfl⟩ := List.mem_map.1 hxe
    obtain ⟨z, hz, rfl⟩ := List.mem_map.1 hy
    refine ⟨z, hz, ?_⟩
    have hl : ((city_coords.lookup z.destination).map (·.lat)).isNone = true := hlat
    cases hcl : city_coords.lookup z.destination with
    | none => rfl
    | some c => rw [hcl] at hl; simp at hl
  by_cases hp : 0 < (missing_coords (enrichAll df)).length
  · have hne : missing_coords (enrichAll df) ≠ [] := by
      intro h
      rw [h] at hp
      simp at hp
    refine ⟨?_, ?_, ?_⟩
    · simp only [coordWarnings, if_pos hp]
      exact ⟨fun _ => hback hne, fun _ => by simp⟩
    · simp [coordWarnings, if_pos hp]
    · intro w hw
      simp only [coordWarnings, if_pos hp, List.mem_singleton] at hw
      subst hw
      exact ⟨List.nodup_dedup _, hmem⟩
  · have hmc : missing_coords (enrichAll df) = [] := by
      cases h : missing_coords (enrichAll df) with
      | nil => rfl
      | cons a t => rw [h] at hp; simp at hp
    refine ⟨?_, ?_, ?_⟩
    · simp only [coordWarnings, if_neg hp]
      constructor
      · intro h
        exact absurd rfl h
      · rintro ⟨x, hx, hlk⟩
        have := hmem x hx hlk
        rw [hmc] at this
        simp at this
    · simp [coordWarnings, if_neg hp]
    · intro w hw
      simp only [coordWarnings, if_neg hp] at hw
      simp at hw

/-- Witness for C9: a table with an unmapped destination triggers the
warning. -/
theorem warning_spec_witness :
    coordWarnings (enrichAll exSpringfield) ≠ [] :=
  (warning_spec exSpringfield).1.mpr
    ⟨mkShip "D1" "Springfield" "Missing", List.mem_cons_self _ _, by decide⟩

/-- C3: the average-transit KPI is `"N/A"` exactly when the filtered set has
no Missing shipment or some Missing shipment lacks a pickup or delivery
timestamp; otherwise it is the mean transit duration in days. -/
theorem avg_transit_na_iff (filtered : List Shipment) :
    (avg_transit_days filtered = none ↔
      missing_shipments filtered = [] ∨
        ∃ x ∈ missing_shipments filtered,
          x.pickup_time = none ∨ x.delivery_time = none) ∧
    (avg_transit_days filtered = none ∨
      avg_transit_days filtered = some
        ((((missing_shipments filtered).map
            (fun x => ((x.delivery_time.getD 0 - x.pickup_time.getD 0 : Int) : Rat))).sum
          / ((missing_shipments filtered).length : Rat)) / 86400)) := by
  have hcond : (!(missing_shipments filtered).isEmpty
        && (missing_shipments filtered).all (fun x => x.pickup_time.isSome)
        && (missing_shipments filtered).all (fun x => x.delivery_time.isSome)) = true ↔
      ¬(missing_shipments filtered = [] ∨ ∃ x ∈ missing_shipments filtered,
          x.pickup_time = none ∨ x.delivery_time = none) := by
    simp only [Bool.and_eq_true, Bool.not_eq_true', List.all_eq_true]
    constructor
    · rintro ⟨⟨hne, h1⟩, h2⟩ (he | ⟨x, hx, hn | hn⟩)
      · rw [he] at hne
        simp at hne
      · have hs := h1 x hx
        rw [hn] at hs
        simp at hs
      · have hs := h2 x hx
        rw [hn] at hs
        simp at hs
    · intro h
      push_neg at h
      obtain ⟨hne, hx⟩ := h
      refine ⟨⟨?_, ?_⟩, ?_⟩
      · cases hms : missing_shipments filtered with
        | nil => exact absurd hms hne
        | cons a t => rfl
      · intro x hx2
        exact Option.isSome_iff_ne_none.2 (hx x hx2).1
      · intro x hx2
        exact Option.isSome_iff_ne_none.2 (hx x hx2).2
  simp only [avg_transit_days]
  by_cases hc : (!(missing_shipments filtered).isEmpty
      && (missing_shipments filtered).all (fun x => x.pickup_time.isSome)
      && (missing_shipments filtered).all (fun x => x.delivery_time.isSome)) = true
  · rw [if_pos hc]
    refine ⟨⟨fun h => by simp at h, fun h => absurd h (hcond.1 hc)⟩, Or.inr rfl⟩
  · rw [if_neg hc]
    have hr : missing_shipments filtered = [] ∨ ∃ x ∈ missing_shipments filtered,
        x.pickup_time = none ∨ x.delivery_time = none :=
      not_not.1 (fun hn => hc (hcond.2 hn))
    exact ⟨⟨fun _ => hr, fun _ => rfl⟩, Or.inl rfl⟩

/-- Witness for C3: with zero Missing shipments the KPI is `"N/A"`. -/
theorem avg_transit_na_iff_witness :
    avg_transit_days deliveredOnly = none :=
  (avg_transit_na_iff deliveredOnly).1.mpr (Or.inl (by decide))

/-- C8: with a specific driver selected, every displayed value is a function
of that driver's shipments alone — two tables agreeing on the selected
driver's rows produce identical dashboards. -/
theorem driver_filter_isolates (sel : String) (key : Shipment → String)
    (ms : String) (df1 df2 : List Shipment) (hsel : sel ≠ "All")
    (hf : df1.filter (fun x => x.driver_id == sel)
        = df2.filter (fun x => x.driver_id == sel)) :
    dashboard sel key ms df1 = dashboard sel key ms df2 := by
  unfold dashboard filterByDriver
  rw [if_neg hsel, if_neg hsel, hf]

/-- Witness for C8: removing another driver's shipment leaves the dashboard
unchanged. -/
theorem driver_filter_isolates_witness :
    dashboard "D1" Shipment.driver_id "Missing"
        [mkShip "D1" "Chicago" "Missing", mkShip "D2" "Houston" "Damaged"]
      = dashboard "D1" Shipment.driver_id "Missing"
        [mkShip "D1" "Chicago" "Missing"] :=
  driver_filter_isolates "D1" Shipment.driver_id "Missing" _ _
    (by decide) (by decide)

/-- C10: the run computes all displayed data yet returns the loaded-and-
enriched shipments table unchanged; the displayed data agrees with the pure
pipeline. -/
theorem script_preserves_table (sel : String) (key : Shipment → String)
    (ms : String) (df : List Shipment) :
    (runScript sel key ms df).2 = df ∧
    (runScript sel key ms df).1 = dashboard sel key ms df :=
  ⟨rfl, rfl⟩

/-- Both required statuses pass the `isin(["Missing", "Damaged"])` mask. -/
theorem contains_of_selected (s : String) (hs : s = "Missing" ∨ s = "Damaged") :
    (["Missing", "Damaged"]).contains s = true := by
  rcases hs with rfl | rfl <;> rfl

/-- C2: for either incident status, the per-group counts in the grouped
incident frame sum to the total count of that status in the filtered set. -/
theorem incident_group_sum (filtered : List Shipment) (key : Shipment → String)
    (s : String)
    (hkey : key = Shipment.driver_id ∨ key = Shipment.vehicle_id ∨
      key = Shipment.route_id)
    (hs : s = "Missing" ∨ s = "Damaged") :
    (((incident_by_group key filtered).filter (fun r => r.status == s)).map
      (fun r => r.count)).sum
      = (filtered.filter (fun x => x.status == s)).length := by
  have hcontains := contains_of_selected s hs
  simp only [incident_by_group]
  rw [List.filter_map, List.map_map]
  show ((((filtered.filter (fun x => (["Missing", "Damaged"]).contains x.status)).map
      (fun x => (key x, x.status))).dedup.filter (fun p => p.2 == s)).map
      (fun p => ((filtered.filter
        (fun x => (["Missing", "Damaged"]).contains x.status)).filter
          (fun x => key x == p.1 && x.status == p.2)).length)).sum = _
  have hcnt : ∀ p ∈ (((filtered.filter
        (fun x => (["Missing", "Damaged"]).contains x.status)).map
        (fun x => (key x, x.status))).dedup.filter (fun p => p.2 == s)),
      ((filtered.filter (fun x => (["Missing", "Damaged"]).contains x.status)).filter
          (fun x => key x == p.1 && x.status == p.2)).length
        = @List.count (String × String) (@instBEqOfDecidableEq (String × String) inferInstance) p
            ((filtered.filter
              (fun x => (["Missing", "Damaged"]).contains x.status)).map
              (fun x => (key x, x.status))) := by
    intro p _
    rw [← List.countP_eq_length_filter]
    show _ = ((filtered.filter
        (fun x => (["Missing", "Damaged"]).contains x.status)).map
        (fun x => (key x, x.status))).countP (fun q => decide (q = p))
    rw [List.countP_map]
    show _ = (filtered.filter
        (fun x => (["Missing", "Damaged"]).contains x.status)).countP
        (fun x => decide ((key x, x.status) = p))
    apply List.countP_congr
    intro x _
    simp [Prod.ext_iff]
  rw [List.map_congr_left hcnt]
  rw [List.sum_map_count_dedup_filter_eq_countP]
  rw [List.countP_map]
  show (filtered.filter (fun x => (["Missing", "Damaged"]).contains x.status)).countP
      (fun x => x.status == s) = _
  rw [List.countP_filter]
  rw [← List.countP_eq_length_filter]
  apply List.countP_congr
  intro x _
  constructor
  · intro h
    rw [Bool.and_eq_true] at h
    exact h.1
  · intro h
    rw [Bool.and_eq_true]
    refine ⟨h, ?_⟩
    have hxs : x.status = s := by simpa using h
    rw [hxs, hcontains]

/-- Witness for C2 on a concrete table, grouping by driver. -/
theorem incident_group_sum_witness :
    (((incident_by_group Shipment.driver_id exSpringfield).filter
      (fun r => r.status == "Missing")).map (fun r => r.count)).sum
      = (exSpringfield.filter (fun x => x.status == "Missing")).length :=
  incident_group_sum exSpringfield Shipment.driver_id "Missing"
    (Or.inl rfl) (Or.inl rfl)

/-- Counterexample to C4 as stated: for a table whose only shipment is
Delivered, its driver is a group occurring in the filtered set, yet the merged
frame has no Missing (nor Damaged) percentage row for that group — the inner
construction only produces rows for (group, status) pairs with at least one
shipment. -/
theorem merged_group_missing_row_cex :
    ¬ ∀ g ∈ deliveredOnly.map Shipment.driver_id, ∀ s ∈ ["Missing", "Damaged"],
      ∃ r ∈ mergedTable Shipment.driver_id deliveredOnly,
        r.group = g ∧ r.status = s := by
  decide

/-- C4 (amended): for each group and each incident status having at least one
shipment of that status in the group, the merged frame contains a row carrying
that group's percentage of that status. -/
theorem merged_group_percent (filtered : List Shipment) (key : Shipment → String)
    (s : String)
    (hkey : key = Shipment.driver_id ∨ key = Shipment.vehicle_id ∨
      key = Shipment.route_id)
    (hs : s = "Missing" ∨ s = "Damaged")
    (x : Shipment) (hx : x ∈ filtered) (hxs : x.status = s) :
    ∃ r ∈ mergedTable key filtered, r.group = key x ∧ r.status = s ∧
      r.count = (filtered.filter (fun y => key y == key x && y.status == s)).length ∧
      r.total = (filtered.filter (fun y => key y == key x)).length ∧
      r.percent = round2 ((r.count : Rat) / (r.total : Rat) * 100) := by
  have hcontains := contains_of_selected s hs
  have hxinc : x ∈ filtered.filter
      (fun y => (["Missing", "Damaged"]).contains y.status) := by
    apply List.mem_filter.2
    refine ⟨hx, ?_⟩
    rw [hxs]
    exact hcontains
  have hp : (key x, s) ∈ ((filtered.filter
      (fun y => (["Missing", "Damaged"]).contains y.status)).map
      (fun y => (key y, y.status))).dedup := by
    apply List.mem_dedup.2
    apply List.mem_map.2
    exact ⟨x, hxinc, by rw [hxs]⟩
  have hrow : ({ group := key x, status := s,
                 count := ((filtered.filter
                   (fun y => (["Missing", "Damaged"]).contains y.status)).filter
                   (fun y => key y == key x && y.status == s)).length } : IncidentRow)
      ∈ incident_by_group key filtered := by
    simp only [incident_by_group]
    exact List.mem_map.2 ⟨(key x, s), hp, rfl⟩
  have hlk : (total_by_group key filtered).lookup (key x)
      = some ((filtered.filter (fun y => key y == key x)).length) := by
    show (((filtered.map key).dedup).map
        (fun g => (g, (filtered.filter (fun y => key y == g)).length))).lookup (key x) = _
    rw [lookup_graph]
    rw [if_pos (List.mem_dedup.2 (List.mem_map.2 ⟨x, hx, rfl⟩))]
  have hcnt : ((filtered.filter
        (fun y => (["Missing", "Damaged"]).contains y.status)).filter
        (fun y => key y == key x && y.status == s)).length
      = (filtered.filter (fun y => key y == key x && y.status == s)).length := by
    rw [List.filter_filter]
    apply congrArg List.length
    apply List.filter_congr
    intro y _
    by_cases h : y.status = s
    · rw [h, hcontains]
      simp
    · have hb : (y.status == s) = false := by simp [h]
      rw [hb]
      simp
  refine ⟨{ group := key x, status := s,
            count := ((filtered.filter
              (fun y => (["Missing", "Damaged"]).contains y.status)).filter
              (fun y => key y == key x && y.status == s)).length,
            total := (filtered.filter (fun y => key y == key x)).length,
            percent := round2
              ((((filtered.filter
                (fun y => (["Missing", "Damaged"]).contains y.status)).filter
                (fun y => key y == key x && y.status == s)).length : Rat)
                / ((filtered.filter (fun y => key y == key x)).length : Rat) * 100) },
    ?_, rfl, rfl, hcnt, rfl, rfl⟩
  apply List.mem_filterMap.2
  refine ⟨_, hrow, ?_⟩
  show ((total_by_group key filtered).lookup (key x)).map _ = _
  rw [hlk]
  rfl

/-- Witness for the amended C4 at a concrete Missing shipment. -/
theorem merged_group_percent_witness :
    ∃ r ∈ mergedTable Shipment.driver_id exSpringfield,
      r.group = (mkShip "D1" "Springfield" "Missing").driver_id ∧
      r.status = "Missing" ∧
      r.count = (exSpringfield.filter (fun y =>
        y.driver_id == (mkShip "D1" "Springfield" "Missing").driver_id
          && y.status == "Missing")).length ∧
      r.total = (exSpringfield.filter (fun y =>
        y.driver_id == (mkShip "D1" "Springfield" "Missing").driver_id)).length ∧
      r.percent = round2 ((r.count : Rat) / (r.total : Rat) * 100) :=
  merged_group_percent exSpringfield Shipment.driver_id "Missing"
    (Or.inl rfl) (Or.inl rfl) (mkShip "D1" "Springfield" "Missing")
    (List.mem_cons_self _ _) rfl
